import Mathlib

/-! # Content operations of `graphene::chain` (protocol/content.hpp)

A shallow embedding of the operation structs declared in
`libraries/chain/include/graphene/chain/protocol/content.hpp` together with the
member functions whose bodies are written in that header:

* `Recerptor_Parameter::validate`
* `get_required_active_uid_authorities` / `get_required_secondary_uid_authorities`
  of the ten operations
* `fee_payer_uid` of the ten operations

Member functions that the header only declares (`calculate_fee` of the platform vote
update, `validate` of the post) and the resolvers inherited from `base_operation` are
marked as such at their definitions.

Conventions of the embedding:

* `optional<T>` is `Option T`, `valid()` is `Option.isSome`.
* `FC_ASSERT` throws; a function that may throw returns `Except String Unit`.
* A member function that mutates its `flat_set<account_uid_type>& a` argument is a
  function from the incoming set to the outgoing set.
* `int16_t`, `int8_t`, `int64_t`, `share_type` are `Int`; `uint8_t`, `uint16_t`,
  `uint64_t` and the identifier types are `Nat`.  The functions written in the
  header do no arithmetic on a field, so no wrap-around has to be modelled for
  them; range predicates are given where a concrete value has to be shown
  representable.  The fee of the platform vote update is the one computation on
  amounts; it is bounded by the largest value of `share_type`.
-/

namespace graphene.chain

/-! ## Base types (declared in headers included by content.hpp) -/

/-- Account identifier, an unsigned 64-bit integer in the base headers. -/
abbrev account_uid_type := Nat

/-- Post identifier, an unsigned 64-bit integer in the base headers. -/
abbrev post_pid_type := Nat

/-- License identifier, an unsigned 64-bit integer in the base headers. -/
abbrev license_lid_type := Nat

/-- Share amounts: a checked signed 64-bit integer in the base headers. -/
abbrev share_type := Int

/-- Range of a signed 16-bit value. -/
def int16_range (x : Int) : Prop := -32768 ≤ x ∧ x ≤ 32767

instance (x : Int) : Decidable (int16_range x) := by
  unfold int16_range; infer_instance

/-- An amount of some asset (base header type; no function below reads it). -/
structure asset where
  amount : share_type
  asset_id : Nat
deriving DecidableEq, Repr

/-- The fee carried by every operation (base header type; no function below reads it). -/
structure fee_type where
  total : asset
deriving DecidableEq, Repr

/-- Reserved future extensions: a set of an empty variant (base header type). -/
abbrev extensions_type := List Unit

/-- The throwing assertion of the fc library: continue when the condition holds,
otherwise raise an error carrying the message. -/
def FC_ASSERT (cond : Bool) (msg : String) : Except String Unit :=
  if cond then Except.ok () else Except.error msg

/-! ## `flat_set<account_uid_type>`

A flat set is a vector of keys kept strictly ascending, hence without duplicates. -/

/-- A `flat_set<account_uid_type>`: its elements in iteration order, strictly ascending. -/
structure flat_set where
  elems : List account_uid_type
  sorted : elems.Sorted (· < ·)
deriving DecidableEq

namespace flat_set

/-- The empty set. -/
def empty : flat_set := ⟨[], List.sorted_nil⟩

/-- Number of stored keys, `size()`. -/
def size (a : flat_set) : Nat := a.elems.length

/-- The past-the-end iterator, `end()`. -/
def end_ (_a : flat_set) : Option account_uid_type := none

/-- Lookup `find(x)`: an iterator to the stored key equal to `x`, or `end()`. -/
def find (a : flat_set) (x : account_uid_type) : Option account_uid_type :=
  a.elems.find? (fun y => y == x)

/-- Unique insertion `insert(x)`: when an equal key is stored the set is left as it
is, otherwise `x` is put in front of the first greater key. -/
def insert (a : flat_set) (x : account_uid_type) : flat_set :=
  if h : x ∈ a.elems then a
  else
    ⟨a.elems.orderedInsert (· ≤ ·) x,
      ((a.sorted.le_of_lt).orderedInsert x a.elems).lt_of_le
        ((List.perm_orderedInsert (· ≤ ·) x a.elems).nodup_iff.mpr
          (List.nodup_cons.mpr ⟨h, a.sorted.nodup⟩))⟩

/-- The mathematical set of keys stored in a flat set. -/
def toFinset (a : flat_set) : Finset account_uid_type := a.elems.toFinset

end flat_set

/-! ## Platform operations -/

/-- Create a platform. -/
structure platform_create_operation where
  fee : fee_type
  account : account_uid_type
  pledge : asset
  name : String
  url : String
  extra_data : String := "\x7b\x7d"
  extensions : extensions_type

namespace platform_create_operation

/-- The account paying the fee. -/
def fee_payer_uid (op : platform_create_operation) : account_uid_type := op.account

/-- Body: `a.insert( account );` -/
def get_required_active_uid_authorities (op : platform_create_operation)
    (a : flat_set) : flat_set :=
  a.insert op.account

end platform_create_operation

/-- Update platform related information. -/
structure platform_update_operation where
  fee : fee_type
  account : account_uid_type
  new_pledge : Option asset
  new_name : Option String
  new_url : Option String
  new_extra_data : Option String
  extensions : extensions_type

namespace platform_update_operation

/-- The account paying the fee. -/
def fee_payer_uid (op : platform_update_operation) : account_uid_type := op.account

/-- Body: `a.insert( account );` -/
def get_required_active_uid_authorities (op : platform_update_operation)
    (a : flat_set) : flat_set :=
  a.insert op.account

end platform_update_operation

/-- Fee parameters of the platform vote update.  The source gives `basic_fee` and
`price_per_platform` the default of one unit of `GRAPHENE_BLOCKCHAIN_PRECISION`
(a constant of a header that is not part of this development) and the other two
fields the default 0; the fields are 64-bit and 16-bit unsigned integers. -/
structure platform_vote_update_operation.fee_parameters_type where
  basic_fee : Nat
  price_per_platform : Nat
  min_real_fee : Nat := 0
  min_rf_percent : Nat := 0
  extensions : extensions_type := []

namespace platform_vote_update_operation.fee_parameters_type

/-- The fields of a schedule fit their types: `basic_fee`, `price_per_platform` and
`min_real_fee` are unsigned 64-bit, `min_rf_percent` is unsigned 16-bit. -/
def representable (k : platform_vote_update_operation.fee_parameters_type) : Prop :=
  k.basic_fee < 2 ^ 64 ∧ k.price_per_platform < 2 ^ 64 ∧ k.min_real_fee < 2 ^ 64 ∧
    k.min_rf_percent < 2 ^ 16

instance (k : platform_vote_update_operation.fee_parameters_type) :
    Decidable k.representable := by
  unfold representable; infer_instance

end platform_vote_update_operation.fee_parameters_type

/-- The largest value of `share_type`, a checked signed 64-bit integer: `2^63 - 1`. -/
def share_type_max : Int := 9223372036854775807

/-- Change or refresh platform voting status. -/
structure platform_vote_update_operation where
  fee : fee_type
  voter : account_uid_type
  platform_to_add : flat_set
  platform_to_remove : flat_set
  extensions : extensions_type

namespace platform_vote_update_operation

/-- The account paying the fee. -/
def fee_payer_uid (op : platform_vote_update_operation) : account_uid_type := op.voter

/-- Body: `a.insert( voter );` -/
def get_required_active_uid_authorities (op : platform_vote_update_operation)
    (a : flat_set) : flat_set :=
  a.insert op.voter

/-- Modelled from the spec: the header only declares
`platform_vote_update_operation::calculate_fee`, its body is in a source file that is
not part of this development.  The specification (section 4.1) gives the cost before
the floors as "`basic_fee + price_per_platform × |platform_to_add|`", says that the
computation never fails and returns a non-negative amount, and that overflow saturates
to the maximum representable amount instead of wrapping.  The result is a `share_type`,
so the sum is returned when it fits and `share_type_max` otherwise. -/
def calculate_fee (op : platform_vote_update_operation) (k : fee_parameters_type) :
    share_type :=
  let core_fee_required : Int :=
    (k.basic_fee : Int) + (k.price_per_platform : Int) * (op.platform_to_add.size : Int)
  if core_fee_required ≤ share_type_max then core_fee_required else share_type_max

end platform_vote_update_operation

/-! ## Receiptor parameters -/

/-- Share of a post's profit held by one receiptor. `cur_ratio` and `buyout_ratio`
are signed 16-bit integers, `buyout_price` is a share amount. -/
structure Recerptor_Parameter where
  cur_ratio : Int
  to_buyout : Bool
  buyout_ratio : Int
  buyout_price : share_type
deriving DecidableEq, Repr

namespace Recerptor_Parameter

/-- Both ratio fields are representable as signed 16-bit integers. -/
def representable (p : Recerptor_Parameter) : Prop :=
  int16_range p.cur_ratio ∧ int16_range p.buyout_ratio

instance (p : Recerptor_Parameter) : Decidable p.representable := by
  unfold representable; infer_instance

/-- The validation written in the header.  The constant
`GRAPHENE_DEFAULT_PLATFORM_RECERPTS_RATIO` is defined in a configuration header
outside this development and is taken as a parameter; the comparison is done on
integers after the usual promotion, so `10000 - R` is the exact difference. -/
def validate ( GRAPHENE_DEFAULT_PLATFORM_RECERPTS_RATIO : Int)
    (p : Recerptor_Parameter) : Except String Unit := do
  if p.to_buyout then
    FC_ASSERT (decide (p.buyout_ratio ≤ p.cur_ratio))
      "forward_ratio must be less then cur_ratio"
  FC_ASSERT (decide (p.cur_ratio ≤ 10000 - GRAPHENE_DEFAULT_PLATFORM_RECERPTS_RATIO))
    "forward_ratio must be less then 75%"

end Recerptor_Parameter

/-! ## Post -/

namespace post_operation

/-- Kinds of post. -/
inductive Post_Type where
  | Post_Type_Post
  | Post_Type_Comment
  | Post_Type_forward
  | Post_Type_forward_And_Modify
  | Post_Type_Default
deriving DecidableEq, Repr

/-- Numeric value of an enumerator: 0, 1, 2, 3 and then the next integer. -/
def Post_Type.value : Post_Type → Nat
  | Post_Type_Post => 0
  | Post_Type_Comment => 1
  | Post_Type_forward => 2
  | Post_Type_forward_And_Modify => 3
  | Post_Type_Default => 4

/-- Extension payload of a post, with the default member initialisers of the source. -/
structure ext where
  post_type : Nat := Post_Type.value Post_Type.Post_Type_Post
  forward_price : Option share_type := none
  receiptors : Option (List (account_uid_type × Recerptor_Parameter)) := none
  license_lid : Option license_lid_type := none
  permission_flags : Nat := 0xFFFF
deriving DecidableEq, Repr

/-- The variant over the extension payloads: one alternative. -/
inductive extension_parameter where
  | ext (e : post_operation.ext)
deriving DecidableEq, Repr

end post_operation

/-- Post an article or a reply.  The extension set is kept as the list of its
elements in iteration order. -/
structure post_operation where
  fee : fee_type
  post_pid : post_pid_type
  platform : account_uid_type := 0
  poster : account_uid_type := 0
  origin_poster : Option account_uid_type := none
  origin_post_pid : Option post_pid_type := none
  origin_platform : Option account_uid_type := none
  hash_value : String
  extra_data : String := "\x7b\x7d"
  title : String
  body : String
  extensions : Option (List post_operation.extension_parameter) := none

namespace post_operation

/-- The account paying the fee. -/
def fee_payer_uid (op : post_operation) : account_uid_type := op.poster

/-- Body: `a.insert( poster ); a.insert( platform );` -/
def get_required_secondary_uid_authorities (op : post_operation)
    (a : flat_set) : flat_set :=
  let a := a.insert op.poster
  let a := a.insert op.platform
  a

end post_operation

/-! ## Post update -/

namespace post_update_operation

/-- Extension payload of a post update: every member is optional. `buyout_ratio`
is a signed 8-bit integer, `permission_flags` an unsigned 16-bit integer. -/
structure ext where
  forward_price : Option share_type := none
  receiptor : Option account_uid_type := none
  to_buyout : Option Bool := none
  buyout_ratio : Option Int := none
  buyout_price : Option share_type := none
  license_lid : Option license_lid_type := none
  permission_flags : Option Nat := none
deriving DecidableEq, Repr

/-- The variant over the extension payloads: one alternative. -/
inductive extension_parameter where
  | ext (e : post_update_operation.ext)
deriving DecidableEq, Repr

namespace extension_parameter

/-- Index of the alternative held, `which()`. -/
def which : extension_parameter → Nat
  | ext _ => 0

/-- Index of the alternative `ext` in the variant, `tag<ext>::value`. -/
def tag_ext_value : Nat := 0

/-- The payload held, `get<ext>()`. -/
def get : extension_parameter → post_update_operation.ext
  | ext e => e

end extension_parameter

end post_update_operation

/-- Update an article.  The extension set is kept as the list of its elements in
iteration order. -/
structure post_update_operation where
  fee : fee_type
  platform : account_uid_type
  poster : account_uid_type
  post_pid : post_pid_type
  hash_value : Option String := none
  extra_data : Option String := none
  title : Option String := none
  body : Option String := none
  extensions : Option (List post_update_operation.extension_parameter) := none

namespace post_update_operation

/-- The account paying the fee. -/
def fee_payer_uid (op : post_update_operation) : account_uid_type := op.poster

/-- One round of the loop over the extension set. -/
def ext_loop_body (op : post_update_operation) (a : flat_set)
    (ext_iter : extension_parameter) : flat_set :=
  if ext_iter.which = extension_parameter.tag_ext_value then
    let ext := ext_iter.get
    let a :=
      if ext.forward_price.isSome ∧ a.find op.poster = a.end_ then a.insert op.poster
      else a
    match ext.receiptor with
    | some r => if a.find r = a.end_ then a.insert r else a
    | none => a
  else a

/-- The authority collection written in the header: platform, then poster when a
content field is set, then the loop over the extension elements. -/
def get_required_secondary_uid_authorities (op : post_update_operation)
    (a : flat_set) : flat_set :=
  let a := a.insert op.platform
  let a :=
    if op.hash_value.isSome ∨ op.extra_data.isSome ∨ op.title.isSome ∨ op.body.isSome
    then a.insert op.poster
    else a
  match op.extensions with
  | some exts => exts.foldl (ext_loop_body op) a
  | none => a

end post_update_operation

/-! ## Score, reward, buyout and license -/

/-- Score an article or a reply. `score` is a signed 8-bit and `csaf` a signed
64-bit integer. -/
structure score_create_operation where
  fee : fee_type
  from_account_uid : account_uid_type
  platform : account_uid_type
  poster : account_uid_type
  post_pid : post_pid_type
  score : Int
  csaf : Int
  extensions : extensions_type

namespace score_create_operation

/-- The account paying the fee. -/
def fee_payer_uid (op : score_create_operation) : account_uid_type := op.from_account_uid

/-- Body: `a.insert(from_account_uid); a.insert(platform);` -/
def get_required_secondary_uid_authorities (op : score_create_operation)
    (a : flat_set) : flat_set :=
  let a := a.insert op.from_account_uid
  let a := a.insert op.platform
  a

end score_create_operation

/-- Reward an article or a reply. -/
structure reward_operation where
  fee : fee_type
  from_account_uid : account_uid_type
  platform : account_uid_type
  poster : account_uid_type
  post_pid : post_pid_type
  amount : asset
  extensions : extensions_type

namespace reward_operation

/-- The account paying the fee. -/
def fee_payer_uid (op : reward_operation) : account_uid_type := op.from_account_uid

/-- Body: `a.insert(from_account_uid);` -/
def get_required_active_uid_authorities (op : reward_operation)
    (a : flat_set) : flat_set :=
  a.insert op.from_account_uid

end reward_operation

/-- Reward an article or a reply, proxied by the platform. -/
structure reward_proxy_operation where
  fee : fee_type
  from_account_uid : account_uid_type
  platform : account_uid_type
  poster : account_uid_type
  post_pid : post_pid_type
  amount : share_type
  extensions : extensions_type

namespace reward_proxy_operation

/-- The account paying the fee. -/
def fee_payer_uid (op : reward_proxy_operation) : account_uid_type := op.from_account_uid

/-- Body: `a.insert(from_account_uid); a.insert(platform);` -/
def get_required_secondary_uid_authorities (op : reward_proxy_operation)
    (a : flat_set) : flat_set :=
  let a := a.insert op.from_account_uid
  let a := a.insert op.platform
  a

end reward_proxy_operation

/-- Buy out the profit share of a receiptor of an article. -/
structure buyout_operation where
  fee : fee_type
  from_account_uid : account_uid_type
  platform : account_uid_type
  poster : account_uid_type
  post_pid : post_pid_type
  receiptor_account_uid : account_uid_type
  extensions : extensions_type

namespace buyout_operation

/-- The account paying the fee. -/
def fee_payer_uid (op : buyout_operation) : account_uid_type := op.from_account_uid

/-- Body: `a.insert(from_account_uid); a.insert(platform);` -/
def get_required_secondary_uid_authorities (op : buyout_operation)
    (a : flat_set) : flat_set :=
  let a := a.insert op.from_account_uid
  let a := a.insert op.platform
  a

end buyout_operation

/-- Create a license. `type` is an unsigned 8-bit integer. -/
structure license_create_operation where
  fee : fee_type
  license_lid : license_lid_type
  platform : account_uid_type := 0
  type : Nat
  hash_value : String
  extra_data : String := "\x7b\x7d"
  title : String
  body : String
  extensions : extensions_type

namespace license_create_operation

/-- The account paying the fee. -/
def fee_payer_uid (op : license_create_operation) : account_uid_type := op.platform

/-- Body: `a.insert(platform);` -/
def get_required_active_uid_authorities (op : license_create_operation)
    (a : flat_set) : flat_set :=
  a.insert op.platform

end license_create_operation

/-! ## Validation of a post -/

namespace post_operation

namespace extension_parameter

/-- Index of the alternative held, `which()`. -/
def which : extension_parameter → Nat
  | ext _ => 0

/-- Index of the alternative `ext` in the variant, `tag<ext>::value`. -/
def tag_ext_value : Nat := 0

/-- The payload held, `get<ext>()`. -/
def get : extension_parameter → post_operation.ext
  | ext e => e

end extension_parameter

/-- Modelled from the spec: the header only declares `post_operation::validate`, its
body is in a source file that is not part of this development; this is the part of it
that checks one extension payload.  The specification gives these rules for a post:
`post_type` is one of Post, Comment, Forward, ForwardAndModify (section 3); for Forward
and ForwardAndModify the three origin fields are all present, for Post and Comment
none of them is present (sections 4.4 and 8); the parameters of a receiptor map are
validated whenever the map is present (section 4.2). -/
def validate_ext ( GRAPHENE_DEFAULT_PLATFORM_RECERPTS_RATIO : Int) (op : post_operation)
    (e : post_operation.ext) : Except String Unit := do
  FC_ASSERT (decide (e.post_type < Post_Type.value Post_Type.Post_Type_Default))
    "post_type is not a post type"
  if e.post_type = Post_Type.value Post_Type.Post_Type_forward
      ∨ e.post_type = Post_Type.value Post_Type.Post_Type_forward_And_Modify then
    FC_ASSERT (op.origin_poster.isSome && op.origin_post_pid.isSome
        && op.origin_platform.isSome)
      "a forward needs origin_poster, origin_post_pid and origin_platform"
  if e.post_type = Post_Type.value Post_Type.Post_Type_Post
      ∨ e.post_type = Post_Type.value Post_Type.Post_Type_Comment then
    FC_ASSERT (!op.origin_poster.isSome && !op.origin_post_pid.isSome
        && !op.origin_platform.isSome)
      "a post or comment has no origin_poster, origin_post_pid or origin_platform"
  match e.receiptors with
  | some receiptors =>
    receiptors.forM
      (fun entry => Recerptor_Parameter.validate GRAPHENE_DEFAULT_PLATFORM_RECERPTS_RATIO entry.2)
  | none => pure ()

/-- Modelled from the spec: the loop of `post_operation::validate` (body not part of
this development) over the elements of the extension set, checking each payload with
`validate_ext` and stopping at the first failure. -/
def validate_exts ( GRAPHENE_DEFAULT_PLATFORM_RECERPTS_RATIO : Int) (op : post_operation) :
    List extension_parameter → Except String Unit
  | [] => pure ()
  | ext_iter :: rest => do
    if ext_iter.which = extension_parameter.tag_ext_value then
      validate_ext GRAPHENE_DEFAULT_PLATFORM_RECERPTS_RATIO op ext_iter.get
    validate_exts GRAPHENE_DEFAULT_PLATFORM_RECERPTS_RATIO op rest

/-- Modelled from the spec: `post_operation::validate`, declared in the header with its
body in a source file that is not part of this development.  It checks the extension
payloads when the extension set is present (sections 3, 4.2, 4.4 and 8 of the
specification, see `validate_ext`). -/
def validate ( GRAPHENE_DEFAULT_PLATFORM_RECERPTS_RATIO : Int) (op : post_operation) :
    Except String Unit :=
  match op.extensions with
  | some exts => validate_exts GRAPHENE_DEFAULT_PLATFORM_RECERPTS_RATIO op exts
  | none => pure ()

end post_operation

/-! ## The ten operation kinds -/

namespace base_operation

/-- Modelled from the spec: every operation struct derives from `base_operation`, which
is declared in a header that is not part of this development.  A kind that does not
define the active resolver itself contributes no account to the active tier (section
4.3 of the specification gives each kind accounts in one tier only). -/
def get_required_active_uid_authorities (a : flat_set) : flat_set := a

/-- Modelled from the spec: the resolver a kind inherits from `base_operation` (declared
in a header that is not part of this development) when it does not define the
secondary resolver itself; it contributes no account to the secondary tier (section
4.3 of the specification). -/
def get_required_secondary_uid_authorities (a : flat_set) : flat_set := a

end base_operation

/-- An operation of one of the ten kinds declared in the header. -/
inductive operation where
  | platform_create (op : platform_create_operation)
  | platform_update (op : platform_update_operation)
  | platform_vote_update (op : platform_vote_update_operation)
  | post (op : post_operation)
  | post_update (op : post_update_operation)
  | score_create (op : score_create_operation)
  | reward (op : reward_operation)
  | reward_proxy (op : reward_proxy_operation)
  | buyout (op : buyout_operation)
  | license_create (op : license_create_operation)

namespace operation

/-- The account paying the fee of an operation: the `fee_payer_uid` of its kind. -/
def fee_payer_uid : operation → account_uid_type
  | platform_create op => op.fee_payer_uid
  | platform_update op => op.fee_payer_uid
  | platform_vote_update op => op.fee_payer_uid
  | post op => op.fee_payer_uid
  | post_update op => op.fee_payer_uid
  | score_create op => op.fee_payer_uid
  | reward op => op.fee_payer_uid
  | reward_proxy op => op.fee_payer_uid
  | buyout op => op.fee_payer_uid
  | license_create op => op.fee_payer_uid

/-- The active resolver of an operation: the one its kind defines in the header, or
the inherited one for the kinds that define only the secondary resolver. -/
def get_required_active_uid_authorities : operation → flat_set → flat_set
  | platform_create op, a => op.get_required_active_uid_authorities a
  | platform_update op, a => op.get_required_active_uid_authorities a
  | platform_vote_update op, a => op.get_required_active_uid_authorities a
  | post _, a => base_operation.get_required_active_uid_authorities a
  | post_update _, a => base_operation.get_required_active_uid_authorities a
  | score_create _, a => base_operation.get_required_active_uid_authorities a
  | reward op, a => op.get_required_active_uid_authorities a
  | reward_proxy _, a => base_operation.get_required_active_uid_authorities a
  | buyout _, a => base_operation.get_required_active_uid_authorities a
  | license_create op, a => op.get_required_active_uid_authorities a

/-- The secondary resolver of an operation: the one its kind defines in the header, or
the inherited one for the kinds that define only the active resolver. -/
def get_required_secondary_uid_authorities : operation → flat_set → flat_set
  | platform_create _, a => base_operation.get_required_secondary_uid_authorities a
  | platform_update _, a => base_operation.get_required_secondary_uid_authorities a
  | platform_vote_update _, a => base_operation.get_required_secondary_uid_authorities a
  | post op, a => op.get_required_secondary_uid_authorities a
  | post_update op, a => op.get_required_secondary_uid_authorities a
  | score_create op, a => op.get_required_secondary_uid_authorities a
  | reward _, a => base_operation.get_required_secondary_uid_authorities a
  | reward_proxy op, a => op.get_required_secondary_uid_authorities a
  | buyout op, a => op.get_required_secondary_uid_authorities a
  | license_create _, a => base_operation.get_required_secondary_uid_authorities a

end operation

/-! ## Sample values used in the statements below -/

/-- A post update that sets no content field and carries one extension element with
`forward_price` set. -/
def post_update_forward_price_only : post_update_operation :=
  { fee := ⟨⟨0, 0⟩⟩, platform := 10, poster := 20, post_pid := 1,
    hash_value := none, extra_data := none, title := none, body := none,
    extensions := some [.ext { forward_price := some 5 }] }

/-- A vote update with voter 1 adding the platforms 2 and 3 and removing none. -/
def vote_update_add_two : platform_vote_update_operation :=
  { fee := ⟨⟨0, 0⟩⟩, voter := 1,
    platform_to_add := (flat_set.empty.insert 2).insert 3,
    platform_to_remove := flat_set.empty, extensions := [] }

/-- A receiptor parameter with negative ratios and the buyout flag set. -/
def negative_ratios : Recerptor_Parameter :=
  { cur_ratio := -1, to_buyout := true, buyout_ratio := -2, buyout_price := 0 }

/-- A forward (post type 2) that names no origin poster. -/
def forward_without_origin_poster : post_operation :=
  { fee := ⟨⟨0, 0⟩⟩, post_pid := 1, platform := 10, poster := 20,
    origin_poster := none, origin_post_pid := some 7, origin_platform := some 10,
    hash_value := "", title := "", body := "",
    extensions := some [.ext { post_type := 2 }] }

/-- A forward (post type 2) that names all three origin fields and one receiptor. -/
def forward_with_origin : post_operation :=
  { fee := ⟨⟨0, 0⟩⟩, post_pid := 1, platform := 10, poster := 20,
    origin_poster := some 30, origin_post_pid := some 7, origin_platform := some 10,
    hash_value := "", title := "", body := "",
    extensions := some [.ext { post_type := 2, receiptors := some [(20, ⟨2600, true, 2500, 0⟩)] }] }

/-- A comment (post type 1) that names an origin post. -/
def comment_with_origin_post : post_operation :=
  { fee := ⟨⟨0, 0⟩⟩, post_pid := 2, platform := 10, poster := 20,
    origin_poster := none, origin_post_pid := some 1, origin_platform := none,
    hash_value := "", title := "", body := "",
    extensions := some [.ext { post_type := 1 }] }

/-- A post update that sets no content field and only changes the permission flags. -/
def post_update_flags_only : post_update_operation :=
  { fee := ⟨⟨0, 0⟩⟩, platform := 10, poster := 20, post_pid := 1,
    hash_value := none, extra_data := none, title := none, body := none,
    extensions := some [.ext { permission_flags := some 0 }] }

/-! ## Facts about `flat_set` -/

namespace flat_set

theorem mem_insert (a : flat_set) (x z : account_uid_type) :
    z ∈ (a.insert x).elems ↔ z = x ∨ z ∈ a.elems := by
  unfold insert
  split
  · rename_i h
    constructor
    · exact fun hz => Or.inr hz
    · rintro (rfl | hz)
      · exact h
      · exact hz
  · simp [List.mem_orderedInsert]

theorem elems_subset_insert (a : flat_set) (x : account_uid_type) :
    ∀ z ∈ a.elems, z ∈ (a.insert x).elems :=
  fun z hz => (mem_insert a x z).mpr (Or.inr hz)

theorem toFinset_insert (a : flat_set) (x : account_uid_type) :
    (a.insert x).toFinset = a.toFinset ∪ {x} := by
  ext z
  simp [toFinset, mem_insert, or_comm]

theorem toFinset_empty : empty.toFinset = ∅ := rfl

theorem find_eq_end_iff (a : flat_set) (x : account_uid_type) :
    a.find x = a.end_ ↔ x ∉ a.elems := by
  simp [find, end_, List.find?_eq_none]
  constructor
  · intro h hx
    exact h x hx rfl
  · rintro h y hy rfl
    exact h hy

theorem nodup (a : flat_set) : a.elems.Nodup := a.sorted.nodup

/-- Two flat sets holding the same keys are the same vector. -/
theorem eq_of_toFinset_eq {a b : flat_set} (h : a.toFinset = b.toFinset) : a = b := by
  have hperm : a.elems.Perm b.elems := by
    rw [List.perm_ext_iff_of_nodup a.nodup b.nodup]
    intro z
    have := congrArg (fun s => z ∈ s) h
    simpa [toFinset] using this
  have helems : a.elems = b.elems := List.eq_of_perm_of_sorted hperm a.sorted b.sorted
  cases a; cases b
  simp only [mk.injEq]
  exact helems

end flat_set

/-! ## The fee of a platform vote update -/

namespace platform_vote_update_operation

/-- The fee is a non-negative share amount. -/
theorem calculate_fee_in_share_range (op : platform_vote_update_operation)
    (k : fee_parameters_type) :
    0 ≤ op.calculate_fee k ∧ op.calculate_fee k ≤ share_type_max := by
  simp only [calculate_fee]
  split
  · rename_i h
    exact ⟨by positivity, h⟩
  · exact ⟨by decide, le_refl _⟩

end platform_vote_update_operation

/-! ## Receiptor parameter validation -/

namespace Recerptor_Parameter

theorem validate_eq_ok_iff (R : Int) (p : Recerptor_Parameter) :
    validate R p = Except.ok () ↔
      (p.to_buyout = true → p.buyout_ratio ≤ p.cur_ratio) ∧ p.cur_ratio ≤ 10000 - R := by
  unfold validate FC_ASSERT
  cases hb : p.to_buyout <;> by_cases h1 : p.buyout_ratio ≤ p.cur_ratio <;>
    by_cases h2 : p.cur_ratio ≤ 10000 - R <;>
    simp [hb, h1, h2, bind, Except.bind, pure, Except.pure]

end Recerptor_Parameter

/-! ## The authority collection of a post update -/

namespace post_update_operation

theorem mem_ext_loop_body (op : post_update_operation) (a : flat_set)
    (it : extension_parameter) (z : account_uid_type) :
    z ∈ (ext_loop_body op a it).elems ↔
      z ∈ a.elems ∨ (z = op.poster ∧ it.get.forward_price.isSome) ∨
        it.get.receiptor = some z := by
  cases it with
  | ext e =>
    simp only [ext_loop_body, extension_parameter.which, extension_parameter.tag_ext_value,
      extension_parameter.get, if_true]
    have hstep : ∀ b : flat_set,
        z ∈ (if e.forward_price.isSome ∧ b.find op.poster = b.end_ then b.insert op.poster
              else b).elems ↔
          z ∈ b.elems ∨ (z = op.poster ∧ e.forward_price.isSome) := by
      intro b
      by_cases hf : e.forward_price.isSome = true
      · by_cases hm : op.poster ∈ b.elems
        · have hfind : ¬ b.find op.poster = b.end_ := by
            rw [flat_set.find_eq_end_iff]; exact not_not.mpr hm
          simp only [hf, hfind, and_false, if_false, and_true]
          constructor
          · exact fun h => Or.inl h
          · rintro (h | rfl)
            · exact h
            · exact hm
        · have hfind : b.find op.poster = b.end_ := by
            rw [flat_set.find_eq_end_iff]; exact hm
          simp only [hf, hfind, and_self, if_true, and_true, flat_set.mem_insert]
          exact or_comm
      · simp [hf]
    generalize hb : (if e.forward_price.isSome ∧ a.find op.poster = a.end_
        then a.insert op.poster else a) = b
    have hzb := hstep a
    rw [hb] at hzb
    cases hr : e.receiptor with
    | none =>
      simp only [hzb, reduceCtorEq, or_false]
    | some r =>
      simp only [Option.some.injEq]
      by_cases hm : r ∈ b.elems
      · have hfind : ¬ b.find r = b.end_ := by
          rw [flat_set.find_eq_end_iff]; exact not_not.mpr hm
        rw [if_neg hfind, hzb]
        constructor
        · rintro (h | h)
          · exact Or.inl h
          · exact Or.inr (Or.inl h)
        · rintro (h | h | rfl)
          · exact Or.inl h
          · exact Or.inr h
          · exact hzb.mp hm
      · have hfind : b.find r = b.end_ := by
          rw [flat_set.find_eq_end_iff]; exact hm
        rw [if_pos hfind, flat_set.mem_insert, hzb]
        constructor
        · rintro (rfl | h | h)
          · exact Or.inr (Or.inr rfl)
          · exact Or.inl h
          · exact Or.inr (Or.inl h)
        · rintro (h | h | rfl)
          · exact Or.inr (Or.inl h)
          · exact Or.inr (Or.inr h)
          · exact Or.inl rfl

theorem mem_foldl_ext_loop_body (op : post_update_operation)
    (exts : List extension_parameter) (a : flat_set) (z : account_uid_type) :
    z ∈ (exts.foldl (ext_loop_body op) a).elems ↔
      z ∈ a.elems ∨ (z = op.poster ∧ ∃ e ∈ exts, e.get.forward_price.isSome) ∨
        ∃ e ∈ exts, e.get.receiptor = some z := by
  induction exts generalizing a with
  | nil => simp
  | cons it rest ih =>
    rw [List.foldl_cons, ih, mem_ext_loop_body]
    simp only [List.mem_cons, exists_eq_or_imp]
    generalize (∃ e ∈ rest, e.get.forward_price.isSome = true) = P
    generalize (∃ e ∈ rest, e.get.receiptor = some z) = Q
    tauto

theorem mem_get_required_secondary_uid_authorities (op : post_update_operation)
    (a : flat_set) (z : account_uid_type) :
    z ∈ (op.get_required_secondary_uid_authorities a).elems ↔
      z ∈ a.elems ∨ z = op.platform ∨
        (z = op.poster ∧
          ((op.hash_value.isSome ∨ op.extra_data.isSome ∨ op.title.isSome ∨ op.body.isSome) ∨
            ∃ exts, op.extensions = some exts ∧ ∃ e ∈ exts, e.get.forward_price.isSome)) ∨
        ∃ exts, op.extensions = some exts ∧ ∃ e ∈ exts, e.get.receiptor = some z := by
  have hfirst : ∀ b : flat_set,
      z ∈ (if op.hash_value.isSome ∨ op.extra_data.isSome ∨ op.title.isSome ∨ op.body.isSome
            then b.insert op.poster else b).elems ↔
        z ∈ b.elems ∨ (z = op.poster ∧
          (op.hash_value.isSome ∨ op.extra_data.isSome ∨ op.title.isSome ∨ op.body.isSome)) := by
    intro b
    split
    · rename_i h
      rw [flat_set.mem_insert]
      simp only [h, and_true]
      exact or_comm
    · rename_i h
      simp only [h, and_false, or_false]
  unfold get_required_secondary_uid_authorities
  cases hx : op.extensions with
  | none =>
    simp only [hfirst, flat_set.mem_insert, reduceCtorEq, false_and, exists_false, or_false]
    tauto
  | some exts =>
    simp only [mem_foldl_ext_loop_body, hfirst, flat_set.mem_insert, Option.some.injEq,
      exists_eq_left']
    generalize (∃ e ∈ exts, e.get.forward_price.isSome = true) = P
    generalize (∃ e ∈ exts, e.get.receiptor = some z) = Q
    tauto

end post_update_operation

/-! ## Validation of a post -/

namespace post_operation

theorem validate_ext_forward_missing_origin (R : Int) (op : post_operation)
    (e : post_operation.ext) (ht : e.post_type = 2 ∨ e.post_type = 3)
    (hmiss : ¬ (op.origin_poster.isSome ∧ op.origin_post_pid.isSome ∧
      op.origin_platform.isSome)) :
    validate_ext R op e
      = Except.error "a forward needs origin_poster, origin_post_pid and origin_platform" := by
  have hmiss2 : (op.origin_poster.isSome && op.origin_post_pid.isSome
      && op.origin_platform.isSome) = false := by
    simpa [Bool.and_eq_true, and_assoc] using hmiss
  rcases ht with ht | ht <;>
    simp [validate_ext, FC_ASSERT, Post_Type.value, ht, hmiss2, bind, Except.bind]

theorem validate_ext_post_with_origin (R : Int) (op : post_operation)
    (e : post_operation.ext) (ht : e.post_type = 0 ∨ e.post_type = 1)
    (hpres : op.origin_poster.isSome ∨ op.origin_post_pid.isSome ∨
      op.origin_platform.isSome) :
    validate_ext R op e
      = Except.error
          "a post or comment has no origin_poster, origin_post_pid or origin_platform" := by
  have hcond : ¬ ((op.origin_poster = none ∧ op.origin_post_pid = none) ∧
      op.origin_platform = none) := by
    rintro ⟨⟨h1, h2⟩, h3⟩
    simp [h1, h2, h3] at hpres
  rcases ht with ht | ht <;>
    simp [validate_ext, FC_ASSERT, Post_Type.value, ht, hcond, bind, Except.bind, pure,
      Except.pure]

theorem validate_exts_error_of_mem (R : Int) (op : post_operation)
    (exts : List extension_parameter) (it : extension_parameter) (msg : String)
    (hmem : it ∈ exts) (herr : validate_ext R op it.get = Except.error msg) :
    ∃ m, validate_exts R op exts = Except.error m := by
  induction exts with
  | nil => cases hmem
  | cons x rest ih =>
    have hwhich : x.which = extension_parameter.tag_ext_value := by
      cases x; rfl
    cases hx : validate_ext R op x.get with
    | error m =>
      exact ⟨m, by simp [validate_exts, hwhich, hx, bind, Except.bind]⟩
    | ok u =>
      have hne : it ≠ x := by
        rintro rfl
        rw [hx] at herr
        cases herr
      have hrest : it ∈ rest := by
        rcases List.mem_cons.mp hmem with h | h
        · exact absurd h hne
        · exact h
      obtain ⟨m, hm⟩ := ih hrest
      exact ⟨m, by simp [validate_exts, hwhich, hx, hm, bind, Except.bind]⟩

theorem validate_forward_with_origin :
    validate 2500 forward_with_origin = Except.ok () := rfl

end post_operation

/-- C1: a receiptor parameter with `to_buyout = true` passes `validate` exactly when
`buyout_ratio ≤ cur_ratio` and `cur_ratio ≤ 10000 - R`; in every other case the
assertion raises one of the two messages of the header.  The parameter with
`cur_ratio = 2600`, `buyout_ratio = 2700` is rejected for every `R` and price. -/
theorem C1_validate_to_buyout_iff (R : Int) (p : Recerptor_Parameter)
    (hb : p.to_buyout = true) :
    (Recerptor_Parameter.validate R p = Except.ok () ↔
        (p.buyout_ratio ≤ p.cur_ratio ∧ p.cur_ratio ≤ 10000 - R)) ∧
      (¬ (p.buyout_ratio ≤ p.cur_ratio ∧ p.cur_ratio ≤ 10000 - R) →
        Recerptor_Parameter.validate R p
            = Except.error "forward_ratio must be less then cur_ratio" ∨
          Recerptor_Parameter.validate R p
            = Except.error "forward_ratio must be less then 75%") ∧
      (∀ price : share_type,
        Recerptor_Parameter.validate R ⟨2600, true, 2700, price⟩
          = Except.error "forward_ratio must be less then cur_ratio") := by
  refine ⟨?_, ?_, ?_⟩
  · rw [Recerptor_Parameter.validate_eq_ok_iff]
    simp [hb]
  · intro hn
    by_cases h1 : p.buyout_ratio ≤ p.cur_ratio
    · have h2 : ¬ p.cur_ratio ≤ 10000 - R := fun h2 => hn ⟨h1, h2⟩
      right
      simp [Recerptor_Parameter.validate, FC_ASSERT, hb, h1, h2, bind, Except.bind]
    · left
      simp [Recerptor_Parameter.validate, FC_ASSERT, hb, h1, bind, Except.bind]
  · intro price
    simp [Recerptor_Parameter.validate, FC_ASSERT, bind, Except.bind]

/-- Witness of C1: the accepted parameter `cur_ratio = 2600`, `buyout_ratio = 2500`
with `R = 2500`. -/
theorem C1_validate_to_buyout_iff_witness :
    (Recerptor_Parameter.validate 2500 ⟨2600, true, 2500, 0⟩ = Except.ok () ↔
        ((2500 : Int) ≤ 2600 ∧ (2600 : Int) ≤ 10000 - 2500)) ∧
      (¬ ((2500 : Int) ≤ 2600 ∧ (2600 : Int) ≤ 10000 - 2500) →
        Recerptor_Parameter.validate 2500 ⟨2600, true, 2500, 0⟩
            = Except.error "forward_ratio must be less then cur_ratio" ∨
          Recerptor_Parameter.validate 2500 ⟨2600, true, 2500, 0⟩
            = Except.error "forward_ratio must be less then 75%") ∧
      (∀ price : share_type,
        Recerptor_Parameter.validate 2500 ⟨2600, true, 2700, price⟩
          = Except.error "forward_ratio must be less then cur_ratio") :=
  C1_validate_to_buyout_iff 2500 ⟨2600, true, 2500, 0⟩ rfl

/-- C2: the collection left by `get_required_secondary_uid_authorities` of a post
update holds exactly the incoming accounts, the platform, the poster when a content
field (`hash_value`, `extra_data`, `title`, `body`) is set or some extension element
has `forward_price` set, and every account that is the `receiptor` of some extension
element.  With the empty incoming set, `title` set and no extensions the result
is the set of platform and poster. -/
theorem C2_post_update_secondary_authorities (op : post_update_operation) (a : flat_set) :
    (∀ z : account_uid_type,
      z ∈ (op.get_required_secondary_uid_authorities a).toFinset ↔
        z ∈ a.toFinset ∨ z = op.platform ∨
          (z = op.poster ∧
            ((op.hash_value.isSome ∨ op.extra_data.isSome ∨ op.title.isSome ∨
                op.body.isSome) ∨
              ∃ exts, op.extensions = some exts ∧
                ∃ e ∈ exts, e.get.forward_price.isSome)) ∨
          ∃ exts, op.extensions = some exts ∧ ∃ e ∈ exts, e.get.receiptor = some z) ∧
      (op.title.isSome → op.extensions = none →
        (op.get_required_secondary_uid_authorities flat_set.empty).toFinset
          = {op.platform, op.poster}) := by
  constructor
  · intro z
    simp only [flat_set.toFinset, List.mem_toFinset]
    exact post_update_operation.mem_get_required_secondary_uid_authorities op a z
  · intro ht hx
    ext z
    simp only [flat_set.toFinset, List.mem_toFinset,
      post_update_operation.mem_get_required_secondary_uid_authorities, hx, ht,
      flat_set.empty, List.not_mem_nil, reduceCtorEq, false_and, exists_false, or_false,
      false_or, or_true, true_or, and_true, Finset.mem_insert, Finset.mem_singleton]

/-- Witness of C2: platform 10, poster 20, only `title` set, no extensions. -/
theorem C2_post_update_secondary_authorities_witness :
    (post_update_operation.get_required_secondary_uid_authorities
        { fee := ⟨⟨0, 0⟩⟩, platform := 10, poster := 20, post_pid := 1,
          title := some "x", extensions := none }
        flat_set.empty).toFinset = {10, 20} :=
  (C2_post_update_secondary_authorities
      { fee := ⟨⟨0, 0⟩⟩, platform := 10, poster := 20, post_pid := 1,
        title := some "x", extensions := none }
      flat_set.empty).2 rfl rfl

/-- Counterexample to C3 as stated: `post_update_forward_price_only` sets no content
field, yet its poster is in the collection computed from the empty set, because an
extension element sets `forward_price`. -/
theorem C3_counterexample :
    ¬ (post_update_forward_price_only.poster ∈
          (post_update_forward_price_only.get_required_secondary_uid_authorities
            flat_set.empty).toFinset ↔
        (post_update_forward_price_only.hash_value.isSome ∨
          post_update_forward_price_only.extra_data.isSome ∨
          post_update_forward_price_only.title.isSome ∨
          post_update_forward_price_only.body.isSome)) := by
  decide

/-- C3 (amended): the collection computed from the empty set contains the poster
exactly when a content field is set, or the poster is also the platform, or some
extension element sets `forward_price`, or some extension element names the poster
as `receiptor`. -/
theorem C3_poster_required_iff (op : post_update_operation) :
    op.poster ∈ (op.get_required_secondary_uid_authorities flat_set.empty).toFinset ↔
      (op.hash_value.isSome ∨ op.extra_data.isSome ∨ op.title.isSome ∨ op.body.isSome) ∨
        op.poster = op.platform ∨
        (∃ exts, op.extensions = some exts ∧ ∃ e ∈ exts, e.get.forward_price.isSome) ∨
        ∃ exts, op.extensions = some exts ∧ ∃ e ∈ exts, e.get.receiptor = some op.poster := by
  simp only [flat_set.toFinset, List.mem_toFinset,
    post_update_operation.mem_get_required_secondary_uid_authorities, flat_set.empty,
    List.not_mem_nil, false_or, true_and]
  generalize (∃ exts, op.extensions = some exts ∧
    ∃ e ∈ exts, e.get.forward_price.isSome = true) = P
  generalize (∃ exts, op.extensions = some exts ∧
    ∃ e ∈ exts, e.get.receiptor = some op.poster) = Q
  tauto

/-- C4: when an extension element of a post update names the receiptor `r`, the
collection computed from any flat set (a duplicate-free vector) contains `r`, holds no
account twice, and holds `r` exactly once, also when `r` is the poster or the
platform. -/
theorem C4_receiptor_once (op : post_update_operation) (a : flat_set)
    (exts : List post_update_operation.extension_parameter)
    (e : post_update_operation.extension_parameter) (r : account_uid_type)
    (hx : op.extensions = some exts) (he : e ∈ exts) (hr : e.get.receiptor = some r) :
    r ∈ (op.get_required_secondary_uid_authorities a).elems ∧
      (op.get_required_secondary_uid_authorities a).elems.Nodup ∧
      (op.get_required_secondary_uid_authorities a).elems.count r = 1 := by
  have hmem : r ∈ (op.get_required_secondary_uid_authorities a).elems := by
    rw [post_update_operation.mem_get_required_secondary_uid_authorities]
    exact Or.inr (Or.inr (Or.inr ⟨exts, hx, e, he, hr⟩))
  have hnodup := (op.get_required_secondary_uid_authorities a).nodup
  exact ⟨hmem, hnodup, List.count_eq_one_of_mem hnodup hmem⟩

/-- Witness of C4: the receiptor 7 is also the poster and the platform, every content
field is set, `forward_price` is set, and 7 is already in the incoming set. -/
theorem C4_receiptor_once_witness :
    (7 : account_uid_type) ∈
        (post_update_operation.get_required_secondary_uid_authorities
          { fee := ⟨⟨0, 0⟩⟩, platform := 7, poster := 7, post_pid := 1,
            title := some "x",
            extensions := some [.ext { forward_price := some 5, receiptor := some 7 }] }
          ((flat_set.empty.insert 7).insert 3)).elems ∧
      (post_update_operation.get_required_secondary_uid_authorities
          { fee := ⟨⟨0, 0⟩⟩, platform := 7, poster := 7, post_pid := 1,
            title := some "x",
            extensions := some [.ext { forward_price := some 5, receiptor := some 7 }] }
          ((flat_set.empty.insert 7).insert 3)).elems.Nodup ∧
      (post_update_operation.get_required_secondary_uid_authorities
          { fee := ⟨⟨0, 0⟩⟩, platform := 7, poster := 7, post_pid := 1,
            title := some "x",
            extensions := some [.ext { forward_price := some 5, receiptor := some 7 }] }
          ((flat_set.empty.insert 7).insert 3)).elems.count 7 = 1 :=
  C4_receiptor_once
    { fee := ⟨⟨0, 0⟩⟩, platform := 7, poster := 7, post_pid := 1,
      title := some "x",
      extensions := some [.ext { forward_price := some 5, receiptor := some 7 }] }
    ((flat_set.empty.insert 7).insert 3)
    [.ext { forward_price := some 5, receiptor := some 7 }]
    (.ext { forward_price := some 5, receiptor := some 7 }) 7 rfl
    (List.mem_singleton.mpr rfl) rfl

/-- C5: for platform create, platform update, platform vote update, reward and license
create, `get_required_active_uid_authorities` leaves the incoming set with one account
added: `account`, `account`, `voter`, `from_account_uid`, `platform` respectively. -/
theorem C5_active_authority_is_primary_account :
    (∀ (op : platform_create_operation) (a : flat_set),
        (op.get_required_active_uid_authorities a).toFinset = a.toFinset ∪ {op.account}) ∧
      (∀ (op : platform_update_operation) (a : flat_set),
        (op.get_required_active_uid_authorities a).toFinset = a.toFinset ∪ {op.account}) ∧
      (∀ (op : platform_vote_update_operation) (a : flat_set),
        (op.get_required_active_uid_authorities a).toFinset = a.toFinset ∪ {op.voter}) ∧
      (∀ (op : reward_operation) (a : flat_set),
        (op.get_required_active_uid_authorities a).toFinset
          = a.toFinset ∪ {op.from_account_uid}) ∧
      (∀ (op : license_create_operation) (a : flat_set),
        (op.get_required_active_uid_authorities a).toFinset = a.toFinset ∪ {op.platform}) :=
  ⟨fun op a => flat_set.toFinset_insert a op.account,
    fun op a => flat_set.toFinset_insert a op.account,
    fun op a => flat_set.toFinset_insert a op.voter,
    fun op a => flat_set.toFinset_insert a op.from_account_uid,
    fun op a => flat_set.toFinset_insert a op.platform⟩

/-- C6: `get_required_secondary_uid_authorities` of a post leaves the incoming set
with `poster` and `platform` added, whatever the other fields hold. -/
theorem C6_post_secondary_authorities (op : post_operation) (a : flat_set) :
    (op.get_required_secondary_uid_authorities a).toFinset
      = a.toFinset ∪ {op.poster, op.platform} := by
  simp only [post_operation.get_required_secondary_uid_authorities,
    flat_set.toFinset_insert]
  ext z
  simp only [Finset.mem_union, Finset.mem_singleton, Finset.mem_insert]
  tauto

/-- C7: for score create, reward proxy and buyout,
`get_required_secondary_uid_authorities` leaves the incoming set with
`from_account_uid` and `platform` added, whatever the other fields hold. -/
theorem C7_payer_and_platform_secondary :
    (∀ (op : score_create_operation) (a : flat_set),
        (op.get_required_secondary_uid_authorities a).toFinset
          = a.toFinset ∪ {op.from_account_uid, op.platform}) ∧
      (∀ (op : reward_proxy_operation) (a : flat_set),
        (op.get_required_secondary_uid_authorities a).toFinset
          = a.toFinset ∪ {op.from_account_uid, op.platform}) ∧
      (∀ (op : buyout_operation) (a : flat_set),
        (op.get_required_secondary_uid_authorities a).toFinset
          = a.toFinset ∪ {op.from_account_uid, op.platform}) := by
  refine ⟨fun op a => ?_, fun op a => ?_, fun op a => ?_⟩
  · simp only [score_create_operation.get_required_secondary_uid_authorities,
      flat_set.toFinset_insert]
    ext z
    simp only [Finset.mem_union, Finset.mem_singleton, Finset.mem_insert]
    tauto
  · simp only [reward_proxy_operation.get_required_secondary_uid_authorities,
      flat_set.toFinset_insert]
    ext z
    simp only [Finset.mem_union, Finset.mem_singleton, Finset.mem_insert]
    tauto
  · simp only [buyout_operation.get_required_secondary_uid_authorities,
      flat_set.toFinset_insert]
    ext z
    simp only [Finset.mem_union, Finset.mem_singleton, Finset.mem_insert]
    tauto

/-- Counterexample to C8 as stated: for the vote update with voter 1 adding the
platforms 2 and 3 and removing none, the active-authority set computed from the empty
set is not empty; it holds the voter. -/
theorem C8_counterexample :
    (vote_update_add_two.get_required_active_uid_authorities flat_set.empty).toFinset ≠ ∅ ∧
      (vote_update_add_two.get_required_active_uid_authorities flat_set.empty).elems = [1] := by
  decide

/-- C8 (amended): for the vote update with voter `A`, `platform_to_add` built from
`P1` and `P2` and empty `platform_to_remove`, the active-authority set computed from
the empty set is the singleton of `A`. -/
theorem C8_vote_update_active_is_voter (A P1 P2 : account_uid_type) (fee : fee_type)
    (extensions : extensions_type) :
    (platform_vote_update_operation.get_required_active_uid_authorities
        { fee := fee, voter := A,
          platform_to_add := (flat_set.empty.insert P1).insert P2,
          platform_to_remove := flat_set.empty, extensions := extensions }
        flat_set.empty).toFinset = {A} ∧
      (platform_vote_update_operation.get_required_active_uid_authorities
        { fee := fee, voter := A,
          platform_to_add := (flat_set.empty.insert P1).insert P2,
          platform_to_remove := flat_set.empty, extensions := extensions }
        flat_set.empty).elems = [A] := by
  constructor
  · simp [platform_vote_update_operation.get_required_active_uid_authorities,
      flat_set.toFinset_insert, flat_set.toFinset_empty]
  · rfl

/-- Counterexample to C9 as stated: with `R = 2500` the parameter `negative_ratios`
(`cur_ratio = -1`, `buyout_ratio = -2`, buyout flag set, both representable in 16
bits) passes `validate` although both ratios are negative. -/
theorem C9_counterexample :
    Recerptor_Parameter.validate 2500 negative_ratios = Except.ok () ∧
      negative_ratios.representable ∧
      ((0 : Int) ≤ 2500 ∧ (2500 : Int) ≤ 10000) ∧
      negative_ratios.to_buyout = true ∧
      ¬ (0 ≤ negative_ratios.cur_ratio) ∧
      ¬ (0 ≤ negative_ratios.buyout_ratio) :=
  ⟨rfl, by decide, by decide, rfl, by decide, by decide⟩

/-- C9 (amended): when `0 ≤ R`, every parameter that passes `validate` has
`cur_ratio ≤ 10000 - R ≤ 10000` and, when the buyout flag is set,
`buyout_ratio ≤ cur_ratio`, hence `buyout_ratio ≤ 10000`. -/
theorem C9_validate_upper_bounds (R : Int) (p : Recerptor_Parameter) (hR : 0 ≤ R)
    (hv : Recerptor_Parameter.validate R p = Except.ok ()) :
    p.cur_ratio ≤ 10000 - R ∧ p.cur_ratio ≤ 10000 ∧
      (p.to_buyout = true → p.buyout_ratio ≤ p.cur_ratio ∧ p.buyout_ratio ≤ 10000) := by
  rw [Recerptor_Parameter.validate_eq_ok_iff] at hv
  obtain ⟨h1, h2⟩ := hv
  refine ⟨h2, by omega, fun hb => ?_⟩
  have := h1 hb
  exact ⟨this, by omega⟩

/-- Witness of C9 (amended): `cur_ratio = 2600`, `buyout_ratio = 2500`, `R = 2500`. -/
theorem C9_validate_upper_bounds_witness :
    (2600 : Int) ≤ 10000 - 2500 ∧ (2600 : Int) ≤ 10000 ∧
      (true = true → (2500 : Int) ≤ 2600 ∧ (2500 : Int) ≤ 10000) :=
  C9_validate_upper_bounds 2500 ⟨2600, true, 2500, 0⟩ (by decide) rfl

namespace post_update_operation

theorem toFinset_get_required_secondary_uid_authorities (op : post_update_operation)
    (a : flat_set) :
    (op.get_required_secondary_uid_authorities a).toFinset
      = a.toFinset ∪ (op.get_required_secondary_uid_authorities flat_set.empty).toFinset := by
  ext z
  simp only [flat_set.toFinset, List.mem_toFinset, Finset.mem_union,
    mem_get_required_secondary_uid_authorities, flat_set.empty, List.not_mem_nil, false_or]

theorem platform_mem_get_required_secondary_uid_authorities (op : post_update_operation)
    (a : flat_set) :
    op.platform ∈ (op.get_required_secondary_uid_authorities a).toFinset := by
  have h := (mem_get_required_secondary_uid_authorities op a op.platform).mpr
    (Or.inr (Or.inl rfl))
  simpa only [flat_set.toFinset, List.mem_toFinset] using h

end post_update_operation

namespace operation

theorem active_resolver_accumulates (op : operation) (a : flat_set) :
    (op.get_required_active_uid_authorities a).toFinset
      = a.toFinset ∪ (op.get_required_active_uid_authorities flat_set.empty).toFinset := by
  cases op <;>
    simp [get_required_active_uid_authorities,
      base_operation.get_required_active_uid_authorities,
      platform_create_operation.get_required_active_uid_authorities,
      platform_update_operation.get_required_active_uid_authorities,
      platform_vote_update_operation.get_required_active_uid_authorities,
      reward_operation.get_required_active_uid_authorities,
      license_create_operation.get_required_active_uid_authorities,
      flat_set.toFinset_insert, flat_set.toFinset_empty]

theorem secondary_resolver_accumulates (op : operation) (a : flat_set) :
    (op.get_required_secondary_uid_authorities a).toFinset
      = a.toFinset ∪ (op.get_required_secondary_uid_authorities flat_set.empty).toFinset := by
  cases op with
  | post_update o =>
    exact post_update_operation.toFinset_get_required_secondary_uid_authorities o a
  | _ =>
    simp [get_required_secondary_uid_authorities,
      base_operation.get_required_secondary_uid_authorities,
      post_operation.get_required_secondary_uid_authorities,
      score_create_operation.get_required_secondary_uid_authorities,
      reward_proxy_operation.get_required_secondary_uid_authorities,
      buyout_operation.get_required_secondary_uid_authorities,
      flat_set.toFinset_insert, flat_set.toFinset_empty, Finset.union_assoc]

/-- One of the two resolvers of every kind is the inherited one. -/
theorem one_tier_inherited (op : operation) :
    (∀ a, op.get_required_active_uid_authorities a = a) ∨
      (∀ a, op.get_required_secondary_uid_authorities a = a) := by
  cases op
  case platform_create => exact Or.inr fun _ => rfl
  case platform_update => exact Or.inr fun _ => rfl
  case platform_vote_update => exact Or.inr fun _ => rfl
  case post => exact Or.inl fun _ => rfl
  case post_update => exact Or.inl fun _ => rfl
  case score_create => exact Or.inl fun _ => rfl
  case reward => exact Or.inr fun _ => rfl
  case reward_proxy => exact Or.inl fun _ => rfl
  case buyout => exact Or.inl fun _ => rfl
  case license_create => exact Or.inr fun _ => rfl

/-- The resolver a kind defines itself adds at least one account. -/
theorem defined_tier_nonempty (op : operation) :
    ¬ ((op.get_required_active_uid_authorities flat_set.empty).toFinset = ∅ ∧
      (op.get_required_secondary_uid_authorities flat_set.empty).toFinset = ∅) := by
  cases op with
  | post_update o =>
    rintro ⟨_, h⟩
    have hmem :=
      post_update_operation.platform_mem_get_required_secondary_uid_authorities o
        flat_set.empty
    simp only [get_required_secondary_uid_authorities] at h
    rw [h] at hmem
    exact absurd hmem (Finset.not_mem_empty _)
  | _ =>
    simp [get_required_active_uid_authorities, get_required_secondary_uid_authorities,
      base_operation.get_required_active_uid_authorities,
      base_operation.get_required_secondary_uid_authorities,
      platform_create_operation.get_required_active_uid_authorities,
      platform_update_operation.get_required_active_uid_authorities,
      platform_vote_update_operation.get_required_active_uid_authorities,
      reward_operation.get_required_active_uid_authorities,
      license_create_operation.get_required_active_uid_authorities,
      post_operation.get_required_secondary_uid_authorities,
      score_create_operation.get_required_secondary_uid_authorities,
      reward_proxy_operation.get_required_secondary_uid_authorities,
      buyout_operation.get_required_secondary_uid_authorities,
      flat_set.toFinset_insert, flat_set.toFinset_empty, Finset.union_eq_empty]

end operation

/-- C11: when an extension element of a post has `post_type` Forward (2) or
ForwardAndModify (3), `validate` fails unless `origin_poster`, `origin_post_pid` and
`origin_platform` are all present; when it has `post_type` Post (0) or Comment (1),
`validate` fails if any of the three is present. -/
theorem C11_post_origin_group (R : Int) (op : post_operation)
    (exts : List post_operation.extension_parameter) (e : post_operation.ext)
    (hx : op.extensions = some exts)
    (he : post_operation.extension_parameter.ext e ∈ exts) :
    ((e.post_type = 2 ∨ e.post_type = 3) →
        ¬ (op.origin_poster.isSome ∧ op.origin_post_pid.isSome ∧
          op.origin_platform.isSome) →
        ∃ msg, post_operation.validate R op = Except.error msg) ∧
      ((e.post_type = 0 ∨ e.post_type = 1) →
        (op.origin_poster.isSome ∨ op.origin_post_pid.isSome ∨
          op.origin_platform.isSome) →
        ∃ msg, post_operation.validate R op = Except.error msg) := by
  have hval : post_operation.validate R op = post_operation.validate_exts R op exts := by
    simp [post_operation.validate, hx]
  constructor
  · intro ht hmiss
    rw [hval]
    exact post_operation.validate_exts_error_of_mem R op exts _ _ he
      (post_operation.validate_ext_forward_missing_origin R op e ht hmiss)
  · intro ht hpres
    rw [hval]
    exact post_operation.validate_exts_error_of_mem R op exts _ _ he
      (post_operation.validate_ext_post_with_origin R op e ht hpres)

/-- Witness of C11: the forward without `origin_poster` is rejected. -/
theorem C11_post_origin_group_witness :
    ∃ msg, post_operation.validate 2500 forward_without_origin_poster = Except.error msg :=
  (C11_post_origin_group 2500 forward_without_origin_poster
      [.ext { post_type := 2 }] { post_type := 2 } rfl
      (List.mem_singleton.mpr rfl)).1 (Or.inl rfl) (by decide)

/-- C12: for every operation of the ten kinds one of the two resolvers is the
inherited one, which adds nothing, and the other one adds at least one account; so the
accounts added to the active tier and those added to the secondary tier are disjoint
and one of the two added sets is empty. -/
theorem C12_tiers_do_not_overlap (op : operation) :
    ((∀ a, op.get_required_active_uid_authorities a = a) ∨
        (∀ a, op.get_required_secondary_uid_authorities a = a)) ∧
      ((op.get_required_active_uid_authorities flat_set.empty).toFinset = ∅ ∨
        (op.get_required_secondary_uid_authorities flat_set.empty).toFinset = ∅) ∧
      ¬ ((op.get_required_active_uid_authorities flat_set.empty).toFinset = ∅ ∧
        (op.get_required_secondary_uid_authorities flat_set.empty).toFinset = ∅) ∧
      (∀ a : flat_set,
        Disjoint ((op.get_required_active_uid_authorities a).toFinset \ a.toFinset)
          ((op.get_required_secondary_uid_authorities a).toFinset \ a.toFinset)) := by
  refine ⟨operation.one_tier_inherited op, ?_, operation.defined_tier_nonempty op, ?_⟩
  · rcases operation.one_tier_inherited op with h | h
    · exact Or.inl (by rw [h]; rfl)
    · exact Or.inr (by rw [h]; rfl)
  · intro a
    rcases operation.one_tier_inherited op with h | h
    · rw [h a, Finset.sdiff_self]
      exact Finset.disjoint_empty_left _
    · rw [h a, Finset.sdiff_self]
      exact Finset.disjoint_empty_right _

/-- C13: a default-constructed extension payload of a post has `post_type` 0
(`Post_Type_Post`), no `forward_price`, no `receiptors`, no `license_lid`, and
`permission_flags = 0xFFFF`, so each of the bits 0 to 15 is set. -/
theorem C13_default_post_ext :
    ({} : post_operation.ext).post_type
        = post_operation.Post_Type.value post_operation.Post_Type.Post_Type_Post ∧
      ({} : post_operation.ext).post_type = 0 ∧
      ({} : post_operation.ext).forward_price = none ∧
      ({} : post_operation.ext).receiptors = none ∧
      ({} : post_operation.ext).license_lid = none ∧
      ({} : post_operation.ext).permission_flags = 0xFFFF ∧
      (∀ i, i < 16 → ({} : post_operation.ext).permission_flags &&& (1 <<< i) ≠ 0) ∧
      ({} : post_operation.ext).permission_flags < 2 ^ 16 :=
  ⟨rfl, rfl, rfl, rfl, rfl, rfl, by decide, by decide⟩

/-- Counterexample to C14 as stated: the post update `post_update_flags_only` (no
content field, only the permission flags change) is paid by its poster 20, and the
poster is in neither set computed from the empty set; the secondary set is the
platform alone. -/
theorem C14_counterexample :
    (operation.post_update post_update_flags_only).fee_payer_uid ∉
        ((operation.post_update post_update_flags_only).get_required_active_uid_authorities
            flat_set.empty).toFinset ∪
          ((operation.post_update
              post_update_flags_only).get_required_secondary_uid_authorities
            flat_set.empty).toFinset ∧
      ((operation.post_update post_update_flags_only).get_required_secondary_uid_authorities
          flat_set.empty).elems = [10] ∧
      (operation.post_update post_update_flags_only).fee_payer_uid = 20 := by
  decide

/-- C14 (amended): for the nine kinds other than the post update the fee payer is in
the set its resolver computes from the empty set; for a post update the fee payer (the
poster) is in it exactly when a content field is set, or the poster is also the
platform, or some extension element sets `forward_price`, or some extension element
names the poster as `receiptor`. -/
theorem C14_fee_payer_required (op : operation) :
    op.fee_payer_uid ∈
        (op.get_required_active_uid_authorities flat_set.empty).toFinset ∪
          (op.get_required_secondary_uid_authorities flat_set.empty).toFinset ↔
      match op with
      | operation.post_update o =>
        (o.hash_value.isSome ∨ o.extra_data.isSome ∨ o.title.isSome ∨ o.body.isSome) ∨
          o.poster = o.platform ∨
          (∃ exts, o.extensions = some exts ∧ ∃ e ∈ exts, e.get.forward_price.isSome) ∨
          ∃ exts, o.extensions = some exts ∧ ∃ e ∈ exts, e.get.receiptor = some o.poster
      | _ => True := by
  cases op with
  | post_update o =>
    simp only [operation.fee_payer_uid, post_update_operation.fee_payer_uid,
      operation.get_required_active_uid_authorities,
      operation.get_required_secondary_uid_authorities,
      base_operation.get_required_active_uid_authorities, flat_set.toFinset_empty,
      Finset.empty_union]
    simp only [flat_set.toFinset, List.mem_toFinset,
      post_update_operation.mem_get_required_secondary_uid_authorities, flat_set.empty,
      List.not_mem_nil, false_or, true_and]
    generalize (∃ exts, o.extensions = some exts ∧
      ∃ e ∈ exts, e.get.forward_price.isSome = true) = P
    generalize (∃ exts, o.extensions = some exts ∧
      ∃ e ∈ exts, e.get.receiptor = some o.poster) = Q
    tauto
  | _ =>
    simp [operation.fee_payer_uid, operation.get_required_active_uid_authorities,
      operation.get_required_secondary_uid_authorities,
      base_operation.get_required_active_uid_authorities,
      base_operation.get_required_secondary_uid_authorities,
      platform_create_operation.get_required_active_uid_authorities,
      platform_update_operation.get_required_active_uid_authorities,
      platform_vote_update_operation.get_required_active_uid_authorities,
      reward_operation.get_required_active_uid_authorities,
      license_create_operation.get_required_active_uid_authorities,
      post_operation.get_required_secondary_uid_authorities,
      score_create_operation.get_required_secondary_uid_authorities,
      reward_proxy_operation.get_required_secondary_uid_authorities,
      buyout_operation.get_required_secondary_uid_authorities,
      platform_create_operation.fee_payer_uid, platform_update_operation.fee_payer_uid,
      platform_vote_update_operation.fee_payer_uid, post_operation.fee_payer_uid,
      score_create_operation.fee_payer_uid, reward_operation.fee_payer_uid,
      reward_proxy_operation.fee_payer_uid, buyout_operation.fee_payer_uid,
      license_create_operation.fee_payer_uid,
      flat_set.toFinset_insert, flat_set.toFinset_empty]

/-- C15: a receiptor parameter with `to_buyout = false` passes `validate` exactly when
`cur_ratio ≤ 10000 - R`; the outcome is the same for every `buyout_ratio`; for every
parameter, whatever its flag, the outcome is the same for every `buyout_price`; a
`buyout_ratio` above `cur_ratio` together with a negative price is accepted. -/
theorem C15_validate_without_buyout (R : Int) (p : Recerptor_Parameter)
    (hb : p.to_buyout = false) :
    (Recerptor_Parameter.validate R p = Except.ok () ↔ p.cur_ratio ≤ 10000 - R) ∧
      (∀ ratio : Int,
        Recerptor_Parameter.validate R { p with buyout_ratio := ratio }
          = Recerptor_Parameter.validate R p) ∧
      (∀ (q : Recerptor_Parameter) (price : share_type),
        Recerptor_Parameter.validate R { q with buyout_price := price }
          = Recerptor_Parameter.validate R q) ∧
      (p.cur_ratio ≤ 10000 - R →
        Recerptor_Parameter.validate R
            { p with buyout_ratio := p.cur_ratio + 1, buyout_price := -1 }
          = Except.ok ()) := by
  refine ⟨?_, ?_, fun _ _ => rfl, ?_⟩
  · rw [Recerptor_Parameter.validate_eq_ok_iff]
    simp [hb]
  · intro ratio
    simp [Recerptor_Parameter.validate, hb]
  · intro hc
    rw [Recerptor_Parameter.validate_eq_ok_iff]
    simp [hb, hc]

/-- Witness of C15: `cur_ratio = 2600`, flag not set, `buyout_ratio = 9999`,
`buyout_price = -5`, `R = 2500`. -/
theorem C15_validate_without_buyout_witness :
    Recerptor_Parameter.validate 2500 ⟨2600, false, 9999, -5⟩ = Except.ok () :=
  (C15_validate_without_buyout 2500 ⟨2600, false, 9999, -5⟩ rfl).1.mpr (by decide)

/-- C16: every resolver of the ten kinds only accumulates: the outgoing set contains
the incoming set, and it is the incoming set united with what the resolver computes
from the empty set; this holds for the post update too, whose guards read the
incoming set. -/
theorem C16_resolvers_accumulate (op : operation) (a : flat_set) :
    (a.toFinset ⊆ (op.get_required_active_uid_authorities a).toFinset ∧
        (op.get_required_active_uid_authorities a).toFinset
          = a.toFinset ∪ (op.get_required_active_uid_authorities flat_set.empty).toFinset) ∧
      (a.toFinset ⊆ (op.get_required_secondary_uid_authorities a).toFinset ∧
        (op.get_required_secondary_uid_authorities a).toFinset
          = a.toFinset ∪
            (op.get_required_secondary_uid_authorities flat_set.empty).toFinset) ∧
      (∀ o : post_update_operation,
        (o.get_required_secondary_uid_authorities a).toFinset
          = a.toFinset ∪ (o.get_required_secondary_uid_authorities flat_set.empty).toFinset) := by
  refine ⟨⟨?_, operation.active_resolver_accumulates op a⟩,
    ⟨?_, operation.secondary_resolver_accumulates op a⟩,
    fun o => post_update_operation.toFinset_get_required_secondary_uid_authorities o a⟩
  · rw [operation.active_resolver_accumulates op a]
    exact Finset.subset_union_left
  · rw [operation.secondary_resolver_accumulates op a]
    exact Finset.subset_union_left

end graphene.chain
